import Mathlib

/-!
Verification development for the Telegram group-moderation bot
(`src/main.py`, `src/database.py`).

Python strings are modelled as lists of bytes (`Bytes := List Nat`, each
entry `< 256`); all concrete inputs used below are ASCII, where the byte
sequence coincides with the code-point sequence, so lexicographic
comparison of byte lists agrees with Python's string comparison.
`hashlib.sha256` and `hmac.new(..., hashlib.sha256)` are embedded as the
standard SHA-256 / HMAC algorithms they implement.
-/

set_option maxRecDepth 100000

namespace Py

abbrev Bytes := List Nat

/-- Truncation to a 32-bit word, `x % 2^32`. -/
def w32 (n : Nat) : Nat := n % 4294967296

/-- 32-bit right rotation by `b`. -/
def rotr (b n : Nat) : Nat := w32 ((n >>> b) ||| (n <<< (32 - b)))

/-- The 64 SHA-256 round constants (FIPS 180-4), in decimal. -/
def shaK : List Nat :=
  [1116352408, 1899447441, 3049323471, 3921009573, 961987163, 1508970993,
   2453635748, 2870763221, 3624381080, 310598401, 607225278, 1426881987,
   1925078388, 2162078206, 2614888103, 3248222580, 3835390401, 4022224774,
   264347078, 604807628, 770255983, 1249150122, 1555081692, 1996064986,
   2554220882, 2821834349, 2952996808, 3210313671, 3336571891, 3584528711,
   113926993, 338241895, 666307205, 773529912, 1294757372, 1396182291,
   1695183700, 1986661051, 2177026350, 2456956037, 2730485921, 2820302411,
   3259730800, 3345764771, 3516065817, 3600352804, 4094571909, 275423344,
   430227734, 506948616, 659060556, 883997877, 958139571, 1322822218,
   1537002063, 1747873779, 1955562222, 2024104815, 2227730452, 2361852424,
   2428436474, 2756734187, 3204031479, 3329325298]

/-- Big-endian 32-bit words from a byte list (length a multiple of 4). -/
def bytesToWords : Bytes → List Nat
  | b0 :: b1 :: b2 :: b3 :: rest => (((b0 * 256 + b1) * 256 + b2) * 256 + b3) :: bytesToWords rest
  | _ => []

/-- One step of the SHA-256 message-schedule recurrence. -/
def sched1 (w16 w15 w7 w2 : Nat) : Nat :=
  w32 (w16 + (rotr 7 w15 ^^^ rotr 18 w15 ^^^ (w15 >>> 3)) + w7 +
       (rotr 17 w2 ^^^ rotr 19 w2 ^^^ (w2 >>> 10)))

/-- Generate `k` further schedule words from a sliding window
`[w(i-16), …, w(i-1)]` of the last 16 words. -/
def extendWords : List Nat → Nat → List Nat
  | _, 0 => []
  | window, k + 1 =>
      let nw := sched1 (window.getD 0 0) (window.getD 1 0) (window.getD 9 0) (window.getD 14 0)
      nw :: extendWords (window.drop 1 ++ [nw]) k

/-- The eight 32-bit working variables of SHA-256. -/
structure Hash8 where
  va : Nat
  vb : Nat
  vc : Nat
  vd : Nat
  ve : Nat
  vf : Nat
  vg : Nat
  vh : Nat
  deriving DecidableEq

/-- One SHA-256 compression round with round constant `ki` and schedule word `wi`. -/
def shaRound (st : Hash8) (ki wi : Nat) : Hash8 :=
  let s1 := rotr 6 st.ve ^^^ rotr 11 st.ve ^^^ rotr 25 st.ve
  let ch := (st.ve &&& st.vf) ^^^ ((st.ve ^^^ 0xffffffff) &&& st.vg)
  let t1 := w32 (st.vh + s1 + ch + ki + wi)
  let s0 := rotr 2 st.va ^^^ rotr 13 st.va ^^^ rotr 22 st.va
  let mj := (st.va &&& st.vb) ^^^ (st.va &&& st.vc) ^^^ (st.vb &&& st.vc)
  let t2 := w32 (s0 + mj)
  ⟨w32 (t1 + t2), st.va, st.vb, st.vc, w32 (st.vd + t1), st.ve, st.vf, st.vg⟩

/-- Run the 64 rounds over the zipped (constant, schedule-word) list. -/
def shaRounds : Hash8 → List (Nat × Nat) → Hash8
  | st, [] => st
  | st, (k, w) :: rest => shaRounds (shaRound st k w) rest

/-- SHA-256 compression of one 64-byte chunk into the running state. -/
def shaCompress (st : Hash8) (chunk : Bytes) : Hash8 :=
  let ws := bytesToWords chunk
  let allw := ws ++ extendWords ws 48
  let f := shaRounds st (shaK.zip allw)
  ⟨w32 (st.va + f.va), w32 (st.vb + f.vb), w32 (st.vc + f.vc), w32 (st.vd + f.vd),
   w32 (st.ve + f.ve), w32 (st.vf + f.vf), w32 (st.vg + f.vg), w32 (st.vh + f.vh)⟩

/-- Split a byte list into successive 64-byte chunks; the fuel argument
(always instantiated with the list length, which each step strictly
decreases) keeps the recursion structural. -/
def chunks64Aux : Nat → Bytes → List Bytes
  | 0, _ => []
  | _, [] => []
  | fuel + 1, b :: rest => (b :: rest).take 64 :: chunks64Aux fuel ((b :: rest).drop 64)

/-- Split a byte list into successive 64-byte chunks. -/
def chunks64 (l : Bytes) : List Bytes := chunks64Aux l.length l

/-- Big-endian 8-byte encoding of a length-in-bits value. -/
def be8 (n : Nat) : Bytes :=
  [(n >>> 56) % 256, (n >>> 48) % 256, (n >>> 40) % 256, (n >>> 32) % 256,
   (n >>> 24) % 256, (n >>> 16) % 256, (n >>> 8) % 256, n % 256]

/-- Big-endian 4-byte encoding of a 32-bit word. -/
def be4 (n : Nat) : Bytes := [(n >>> 24) % 256, (n >>> 16) % 256, (n >>> 8) % 256, n % 256]

/-- SHA-256 padding: `0x80`, zeros to 56 mod 64, then the bit length. -/
def shaPad (msg : Bytes) : Bytes :=
  msg ++ [128] ++ List.replicate ((119 - msg.length % 64) % 64) 0 ++ be8 (msg.length * 8)

/-- SHA-256 of a byte string (the function `hashlib.sha256(·).digest()` computes). -/
def sha256 (msg : Bytes) : Bytes :=
  let f := (chunks64 (shaPad msg)).foldl shaCompress
    ⟨1779033703, 3144134277, 1013904242, 2773480762,
     1359893119, 2600822924, 528734635, 1541459225⟩
  be4 f.va ++ be4 f.vb ++ be4 f.vc ++ be4 f.vd ++ be4 f.ve ++ be4 f.vf ++ be4 f.vg ++ be4 f.vh

/-- HMAC-SHA256 (`hmac.new(key, msg, hashlib.sha256).digest()`), RFC 2104. -/
def hmacSha256 (key msg : Bytes) : Bytes :=
  let k0 := if 64 < key.length then sha256 key else key
  let kp := k0 ++ List.replicate (64 - k0.length) 0
  sha256 ((kp.map (fun b => b ^^^ 92)) ++ sha256 ((kp.map (fun b => b ^^^ 54)) ++ msg))

/-- One lowercase hex digit as an ASCII byte. -/
def hexDigit (n : Nat) : Nat := if n < 10 then 48 + n else 87 + n

/-- Lowercase hex encoding of a byte string (`.hexdigest()`). -/
def hexBytes : Bytes → Bytes
  | [] => []
  | b :: rest => hexDigit (b / 16) :: hexDigit (b % 16) :: hexBytes rest

/-- ASCII string to its byte list (all source literals used here are ASCII). -/
def ascii (s : String) : Bytes := s.toList.map Char.toNat

example : hexBytes (sha256 (ascii "abc")) =
    ascii "ba7816bf8f01cfea414140de5dae2223b00361a396177a9cb410ff61f20015ad" := by decide

example : hexBytes (sha256 []) =
    ascii "e3b0c44298fc1c149afbf4c8996fb92427ae41e4649b934ca495991b7852b855" := by decide

example : hexBytes (hmacSha256 (List.replicate 20 11) (ascii "Hi There")) =
    ascii "b0344c61d8db38535ca8afceaf0bf12b881dc200c9833da726e9376c2e32cff7" := by decide

/-! ### `urllib.parse.unquote` / `parse_qsl`, modelled at byte level -/

/-- Is the byte an ASCII hex digit? -/
def isHexB (b : Nat) : Bool := (48 ≤ b && b ≤ 57) || (97 ≤ b && b ≤ 102) || (65 ≤ b && b ≤ 70)

/-- Value of an ASCII hex digit. -/
def hexVal (b : Nat) : Nat := if b ≤ 57 then b - 48 else if b ≤ 70 then b - 55 else b - 87

/-- `urllib.parse.unquote`, at byte level: each valid `%XX` escape becomes the
byte `XX`; a `%` not followed by two hex digits is kept verbatim (CPython
keeps the `%` and continues with the rest of the string). -/
def unquoteBytes : Bytes → Bytes
  | 37 :: a :: b :: rest =>
      if isHexB a && isHexB b then (hexVal a * 16 + hexVal b) :: unquoteBytes rest
      else 37 :: unquoteBytes (a :: b :: rest)
  | b :: rest => b :: unquoteBytes rest
  | [] => []

/-- `str.replace('+', ' ')` as applied by `parse_qsl` to each name and value. -/
def plusToSpace (l : Bytes) : Bytes := l.map (fun b => if b = 43 then 32 else b)

/-- `str.split(sep)` on a single separator byte (empty segments included). -/
def splitOnByte (sep : Nat) : Bytes → List Bytes
  | [] => [[]]
  | b :: rest =>
      if b = sep then [] :: splitOnByte sep rest
      else match splitOnByte sep rest with
        | seg :: segs => (b :: seg) :: segs
        | [] => [[b]]

/-- `str.split('=', 1)`: split at the first `=` if any. -/
def splitFirstEq : Bytes → Option (Bytes × Bytes)
  | [] => none
  | b :: rest =>
      if b = 61 then some ([], rest)
      else match splitFirstEq rest with
        | some (n, v) => some (b :: n, v)
        | none => none

/-- Handling of one `&`-segment by `urllib.parse.parse_qsl` (CPython): the
segment is split at the first `=`; a segment without `=` is kept as a blank
value only under `keep_blank_values`, as is a pair with an empty value;
names and values get `+`→space then percent-decoding. -/
def qslPair (kbv : Bool) (seg : Bytes) : Option (Bytes × Bytes) :=
  match splitFirstEq seg with
  | some (n, v) =>
      if v.length ≠ 0 || kbv then
        some (unquoteBytes (plusToSpace n), unquoteBytes (plusToSpace v))
      else none
  | none => if kbv then some (unquoteBytes (plusToSpace seg), []) else none

/-- `urllib.parse.parse_qsl(qs, keep_blank_values=kbv)`: empty segments are
skipped, the others handled by `qslPair`. -/
def parse_qsl (kbv : Bool) (qs : Bytes) : List (Bytes × Bytes) :=
  ((splitOnByte 38 qs).filter (fun seg => seg ≠ [])).filterMap (qslPair kbv)

/-! ### Python `dict` built from a pair list (insertion order, last value wins) -/

/-- One `d[k] = v` step of `dict(pairs)`: an existing key keeps its position
but takes the new value; a new key is appended. -/
def dictInsert (d : List (Bytes × Bytes)) (kv : Bytes × Bytes) : List (Bytes × Bytes) :=
  if d.any (fun p => p.1 == kv.1) then
    d.map (fun p => if p.1 == kv.1 then (p.1, kv.2) else p)
  else d ++ [kv]

/-- `dict(pairs)` as an insertion-ordered association list. -/
def toDict (ps : List (Bytes × Bytes)) : List (Bytes × Bytes) := ps.foldl dictInsert []

/-- `d.pop(k)`: the removed value and the remaining dict, or `none`
(`KeyError`) when the key is absent. -/
def dictPop (k : Bytes) (d : List (Bytes × Bytes)) : Option (Bytes × List (Bytes × Bytes)) :=
  match d.find? (fun p => p.1 == k) with
  | none => none
  | some p => some (p.2, d.filter (fun q => !(q.1 == k)))

/-! ### Python string comparison (lexicographic; ASCII = code points) -/

/-- Lexicographic `≤` on byte strings, matching Python string comparison. -/
def bytesLe : Bytes → Bytes → Bool
  | [], _ => true
  | _ :: _, [] => false
  | a :: xs, b :: ys => if a < b then true else if a = b then bytesLe xs ys else false

/-- Python tuple comparison on `(key, value)` pairs, as used by
`sorted(d.items())`. -/
def pairLe (x y : Bytes × Bytes) : Bool :=
  if x.1 = y.1 then bytesLe x.2 y.2 else bytesLe x.1 y.1

/-- The `Prop` form of `pairLe`, for use with `List.insertionSort`. -/
def PairLeP (x y : Bytes × Bytes) : Prop := pairLe x y = true

instance : DecidableRel PairLeP := fun x y => by unfold PairLeP; infer_instance

/-- `sorted(d.items())`: with the distinct keys of a dict the sorted
rearrangement is unique, so any sorting algorithm yields Python's result. -/
def sortedItems (d : List (Bytes × Bytes)) : List (Bytes × Bytes) :=
  List.insertionSort PairLeP d

/-- `"\n".join(strs)`. -/
def joinNL : List Bytes → Bytes
  | [] => []
  | [x] => x
  | x :: y :: rest => x ++ 10 :: joinNL (y :: rest)

/-! ### `is_valid_init_data` (src/main.py lines 74-85) -/

def hashKey : Bytes := ascii "hash"

def webAppDataLit : Bytes := ascii "WebAppData"

/-- The dict `parse_qsl(unquote(init_data), keep_blank_values=True)` builds. -/
def initDict (init_data : Bytes) : List (Bytes × Bytes) :=
  toDict (parse_qsl true (unquoteBytes init_data))

/-- `src/main.py` `is_valid_init_data`: parse, pop `hash` (a `KeyError` is
caught and yields `False`), sort the remaining items, join as `k=v` lines,
derive `secret_key = hmac.new(b"WebAppData", bot_token, sha256)`, and compare
the hex HMAC of the check string with the received hash. -/
def is_valid_init_data (init_data bot_token : Bytes) : Bool :=
  match dictPop hashKey (initDict init_data) with
  | none => false
  | some (received_hash, rest) =>
      let dcs := joinNL ((sortedItems rest).map (fun kv => kv.1 ++ 61 :: kv.2))
      let secret_key := hmacSha256 webAppDataLit bot_token
      let calculated_hash := hexBytes (hmacSha256 secret_key dcs)
      calculated_hash == received_hash

/-- The `hash` field of the parsed payload, if present. -/
def hashField (init_data : Bytes) : Option Bytes :=
  ((initDict init_data).find? (fun p => p.1 == hashKey)).map Prod.snd

/-- The check string: remove `hash`, sort the remaining pairs, join as
`k=v` lines separated by newline. -/
def data_check_string (init_data : Bytes) : Bytes :=
  joinNL ((sortedItems ((initDict init_data).filter (fun q => !(q.1 == hashKey)))).map
    (fun kv => kv.1 ++ 61 :: kv.2))

/-- The hash the code's algorithm expects: hex HMAC-SHA256 of the check
string, keyed by `HMAC-SHA256(key = "WebAppData", message = bot token)`. -/
def codeExpectedHash (init_data bot_token : Bytes) : Bytes :=
  hexBytes (hmacSha256 (hmacSha256 webAppDataLit bot_token) (data_check_string init_data))

/-- Modelled from the spec's words (claim C2): "a secret derived as
HMAC-SHA256 of the literal string `"WebAppData"` keyed by the bot's raw
token", i.e. message `"WebAppData"`, key the token — the opposite keying of
the code's `hmac.new("WebAppData".encode(), bot_token.encode(), sha256)`. -/
def c2SpecSecret (bot_token : Bytes) : Bytes := hmacSha256 bot_token webAppDataLit

/-- The hash the claim's formula expects (spec-side definition). -/
def c2SpecExpectedHash (init_data bot_token : Bytes) : Bytes :=
  hexBytes (hmacSha256 (c2SpecSecret bot_token) (data_check_string init_data))

/-! ### JSON field values and Python coercions

The moderation payload `{action, user_id, chat_id}` is arbitrary JSON; the
three fields are modelled as absent (`None`), integer, or string values
(no claim involves other JSON shapes). -/

inductive JVal where
  | jnull
  | jint (n : Int)
  | jstr (s : Bytes)
  deriving DecidableEq

/-- Python truthiness of such a field value (`None`, `0` and `""` are falsy). -/
def truthy : JVal → Bool
  | .jnull => false
  | .jint n => n != 0
  | .jstr s => s != []

/-- Python whitespace bytes stripped by `int(str)`. -/
def isSpaceB (b : Nat) : Bool := b = 32 || b = 9 || b = 10 || b = 13 || b = 11 || b = 12

def allDigits (l : Bytes) : Bool := l.all (fun b => 48 ≤ b && b ≤ 57)

def digitsToNat (l : Bytes) : Nat := l.foldl (fun acc b => acc * 10 + (b - 48)) 0

/-- `int(s)` on a string: strip whitespace, optional sign, decimal digits;
anything else raises `ValueError` (`none`). (Digit-group underscores, an
edge case no claim involves, are not modelled.) -/
def pyIntOfBytes (s : Bytes) : Option Int :=
  let t := (((s.dropWhile isSpaceB).reverse).dropWhile isSpaceB).reverse
  match t with
  | 43 :: rest => if rest ≠ [] && allDigits rest then some (Int.ofNat (digitsToNat rest)) else none
  | 45 :: rest => if rest ≠ [] && allDigits rest then some (-Int.ofNat (digitsToNat rest)) else none
  | _ => if t ≠ [] && allDigits t then some (Int.ofNat (digitsToNat t)) else none

/-- `int(x)` on a field value: identity on integers, string parsing on
strings, `TypeError` (`none`) on `None`. -/
def pyIntOfJVal : JVal → Option Int
  | .jint n => some n
  | .jstr s => pyIntOfBytes s
  | .jnull => none

/-! ### The transport boundary (aiogram `Bot` calls)

Every `bot.*` call is a suspension point whose outcome the environment
supplies: `.error e` models a raised `aiogram.exceptions.TelegramAPIError`
with reason string `e.message`. -/

structure TgErr where
  message : Bytes
  deriving DecidableEq

deriving instance DecidableEq for Except

inductive MemberStatus where
  | creator
  | administrator
  | member
  | restricted
  | left
  | kicked
  deriving DecidableEq

structure Transport where
  getChatMember : Int → Int → Except TgErr MemberStatus
  getChat : JVal → Except TgErr Bytes
  banChatMember : Int → JVal → Except TgErr Unit
  unbanChatMember : Int → JVal → Bool → Except TgErr Unit
  restrictChatMember : Int → JVal → Except TgErr Unit
  sendMessage : Int → Except TgErr Unit

/-- `src/main.py` `is_user_admin_in_chat`: query the member status, return
whether it is administrator or creator; any `TelegramAPIError` yields
`False`. -/
def is_user_admin_in_chat (tr : Transport) (user_id chat_id : Int) : Bool :=
  match tr.getChatMember chat_id user_id with
  | .error _ => false
  | .ok st => st == .administrator || st == .creator

/-! ### `src/database.py` (the `banned_users` and `managed_chats` tables)

A `banned_users` row; the `ban_time` column (filled by a SQL default and
never read by any code path) is omitted. -/

structure BanRecord where
  chat_id : Int
  user_id : Int
  admin_id : Int
  deriving DecidableEq

/-- `database.ban_user`: `INSERT ... ON CONFLICT (chat_id, user_id) DO
NOTHING` — insertion under an existing key is a no-op. -/
def ban_user (banned : List BanRecord) (chat_id user_id admin_id : Int) : List BanRecord :=
  if banned.any (fun r => r.chat_id == chat_id && r.user_id == user_id) then banned
  else banned ++ [⟨chat_id, user_id, admin_id⟩]

/-- `database.unban_user`: `DELETE FROM banned_users WHERE ...`. Defined in
`src/database.py` but never called from `src/main.py`. -/
def unban_user (banned : List BanRecord) (chat_id user_id : Int) : List BanRecord :=
  banned.filter (fun r => !(r.chat_id == chat_id && r.user_id == user_id))

/-- `database.is_user_banned`. -/
def is_user_banned (banned : List BanRecord) (chat_id user_id : Int) : Bool :=
  banned.any (fun r => r.chat_id == chat_id && r.user_id == user_id)

/-- The persistent store: `managed_chats` (chat_id → title) and
`banned_users`. -/
structure DB where
  managed : List (Int × Bytes)
  banned : List BanRecord
  deriving DecidableEq

/-! ### `web_app_data_handler` (src/main.py lines 173-229) -/

/-- The moderation payload `{action, user_id, chat_id}` as read by
`data.get(...)` (an absent field gives `None`). -/
structure ModPayload where
  action : JVal
  user_id : JVal
  chat_id : JVal
  deriving DecidableEq

/-- The result of `json.loads(message.web_app_data.data)`: a parse failure
raises and is caught by the handler's outer `except`. -/
inductive WebAppData where
  | malformed
  | payload (p : ModPayload)
  deriving DecidableEq

/-- The in-chat notice broadcast on a successful action (the f-string names
actor and target; the structured form records the data interpolated). -/
inductive Notice where
  | bannedNotice (admin_id : Int) (target : JVal)
  | kickedNotice (admin_id : Int) (target : JVal)
  | warnedNotice (admin_id : Int) (target : JVal)
  | mutedNotice (admin_id : Int) (target : JVal)
  deriving DecidableEq

/-- One outbound transport call attempted by the handler, in order. -/
inductive Call where
  | getChatMember (chat_id user_id : Int)
  | getChat (target : JVal)
  | ban (chat_id : Int) (target : JVal)
  | unban (chat_id : Int) (target : JVal) (only_if_banned : Bool)
  | restrict (chat_id : Int) (target : JVal)
  | sendChat (chat_id : Int) (n : Notice)
  deriving DecidableEq

/-- The exception the outer `except Exception` interpolates into the
"internal server error" answer, or context of an API-failure answer. -/
inductive PyErr where
  | badJson
  | incompleteData
  | badChatId
  | nameLookupFailed (m : Bytes)
  | dbTypeError
  | unknownAction (a : JVal)
  deriving DecidableEq

/-- A `message.answer(...)` sent back to the acting admin's private chat. -/
inductive Reply where
  | notAdmin
  | serverError (e : PyErr)
  | apiFail (action : Bytes) (reason : Bytes)
  | banOk (name : Bytes)
  | kickOk (name : Bytes)
  | warnOk (name : Bytes)
  | muteOk (name : Bytes)
  deriving DecidableEq

structure ModResult where
  banned : List BanRecord
  calls : List Call
  replies : List Reply
  deriving DecidableEq

/-- The body of `web_app_data_handler` on the `banned_users` state it
touches. Control flow follows the source: parse, falsy-field check
(`ValueError` → outer except), `int(chat_id)`, admin check, display-name
lookup via `bot.get_chat` (NOT inside the inner try: a failure there is
caught by the outer `except Exception`), then the per-action inner
`try/except TelegramAPIError`. `message.answer` to the actor's private
chat is modelled as infallible; `bot.send_message` into the group is a
fallible transport call. `database.ban_user` requires an integer user id
(asyncpg rejects other types for a BIGINT column). -/
def webAppCore (tr : Transport) (banned : List BanRecord) (admin_id : Int)
    (wad : WebAppData) : ModResult :=
  match wad with
  | .malformed => ⟨banned, [], [.serverError .badJson]⟩
  | .payload p =>
    if truthy p.action && truthy p.user_id && truthy p.chat_id then
      match pyIntOfJVal p.chat_id with
      | none => ⟨banned, [], [.serverError .badChatId]⟩
      | some chat_id =>
        if is_user_admin_in_chat tr admin_id chat_id then
          match tr.getChat p.user_id with
          | .error e =>
              ⟨banned, [.getChatMember chat_id admin_id, .getChat p.user_id],
               [.serverError (.nameLookupFailed e.message)]⟩
          | .ok user_name =>
            let pre := [Call.getChatMember chat_id admin_id, Call.getChat p.user_id]
            match p.action with
            | .jstr s =>
              if s = ascii "ban" then
                match tr.banChatMember chat_id p.user_id with
                | .error e => ⟨banned, pre ++ [.ban chat_id p.user_id], [.apiFail s e.message]⟩
                | .ok _ =>
                  match p.user_id with
                  | .jint uid =>
                    let banned' := ban_user banned chat_id uid admin_id
                    match tr.sendMessage chat_id with
                    | .error e =>
                        ⟨banned', pre ++ [.ban chat_id p.user_id,
                          .sendChat chat_id (.bannedNotice admin_id p.user_id)],
                         [.apiFail s e.message]⟩
                    | .ok _ =>
                        ⟨banned', pre ++ [.ban chat_id p.user_id,
                          .sendChat chat_id (.bannedNotice admin_id p.user_id)],
                         [.banOk user_name]⟩
                  | _ => ⟨banned, pre ++ [.ban chat_id p.user_id], [.serverError .dbTypeError]⟩
              else if s = ascii "kick" then
                match tr.banChatMember chat_id p.user_id with
                | .error e => ⟨banned, pre ++ [.ban chat_id p.user_id], [.apiFail s e.message]⟩
                | .ok _ =>
                  match tr.unbanChatMember chat_id p.user_id true with
                  | .error e =>
                      ⟨banned, pre ++ [.ban chat_id p.user_id, .unban chat_id p.user_id true],
                       [.apiFail s e.message]⟩
                  | .ok _ =>
                    match tr.sendMessage chat_id with
                    | .error e =>
                        ⟨banned, pre ++ [.ban chat_id p.user_id, .unban chat_id p.user_id true,
                          .sendChat chat_id (.kickedNotice admin_id p.user_id)],
                         [.apiFail s e.message]⟩
                    | .ok _ =>
                        ⟨banned, pre ++ [.ban chat_id p.user_id, .unban chat_id p.user_id true,
                          .sendChat chat_id (.kickedNotice admin_id p.user_id)],
                         [.kickOk user_name]⟩
              else if s = ascii "warn" then
                match tr.sendMessage chat_id with
                | .error e =>
                    ⟨banned, pre ++ [.sendChat chat_id (.warnedNotice admin_id p.user_id)],
                     [.apiFail s e.message]⟩
                | .ok _ =>
                    ⟨banned, pre ++ [.sendChat chat_id (.warnedNotice admin_id p.user_id)],
                     [.warnOk user_name]⟩
              else if s = ascii "mute" then
                match tr.restrictChatMember chat_id p.user_id with
                | .error e =>
                    ⟨banned, pre ++ [.restrict chat_id p.user_id], [.apiFail s e.message]⟩
                | .ok _ =>
                  match tr.sendMessage chat_id with
                  | .error e =>
                      ⟨banned, pre ++ [.restrict chat_id p.user_id,
                        .sendChat chat_id (.mutedNotice admin_id p.user_id)],
                       [.apiFail s e.message]⟩
                  | .ok _ =>
                      ⟨banned, pre ++ [.restrict chat_id p.user_id,
                        .sendChat chat_id (.mutedNotice admin_id p.user_id)],
                       [.muteOk user_name]⟩
              else ⟨banned, pre, [.serverError (.unknownAction p.action)]⟩
            | _ => ⟨banned, pre, [.serverError (.unknownAction p.action)]⟩
        else ⟨banned, [.getChatMember chat_id admin_id], [.notAdmin]⟩
    else ⟨banned, [], [.serverError .incompleteData]⟩

/-- `web_app_data_handler` on the whole store: the handler's only store
interaction is `database.ban_user` on `banned_users`; `managed_chats` is
never queried by this handler. -/
def web_app_data_handler (tr : Transport) (db : DB) (admin_id : Int)
    (wad : WebAppData) : DB × List Call × List Reply :=
  let r := webAppCore tr db.banned admin_id wad
  ({ db with banned := r.banned }, r.calls, r.replies)

/-! ### `remember_member_handler` and the recency cache
(src/main.py lines 160-171, `chat_recent_members`) -/

/-- `message.from_user` as used by the handler. -/
structure TgUser where
  id : Int
  first_name : Bytes
  last_name : Option Bytes
  username : Option Bytes
  is_bot : Bool
  deriving DecidableEq

/-- The dict the handler stores:
`{"id": ..., "first_name": ..., "last_name": ... or "", "username": ... or ""}`. -/
structure MemberInfo where
  id : Int
  first_name : Bytes
  last_name : Bytes
  username : Bytes
  deriving DecidableEq

def memberInfo (u : TgUser) : MemberInfo :=
  ⟨u.id, u.first_name, u.last_name.getD [], u.username.getD []⟩

def MAX_RECENT_MEMBERS_PER_CHAT : Nat := 100

/-- One chat's `OrderedDict`, least-recently-seen first (its iteration
order). -/
abbrev Cache := List (Int × MemberInfo)

/-- The three mutation lines of the handler on one chat's `OrderedDict`:
`d[user.id] = info` followed by `d.move_to_end(user.id)` removes any
existing entry for the key and appends the fresh entry at the
most-recently-seen end; `while len(d) > cap: d.popitem(last=False)` then
drops entries from the least-recently-seen end down to the cap. -/
def cacheStep (cache : Cache) (u : TgUser) : Cache :=
  let c1 := (cache.filter (fun q => !(q.1 == u.id))) ++ [(u.id, memberInfo u)]
  c1.drop (c1.length - MAX_RECENT_MEMBERS_PER_CHAT)

/-- `remember_member_handler` on the global `chat_recent_members` dict:
bot authors are ignored; the message's chat gets an entry created on
demand and updated by `cacheStep`. (The surrounding dispatcher filter
restricts this handler to group messages whose text does not start with
`/`; the message list fed to the model is that stream.) -/
def remember_member_handler (caches : List (Int × Cache)) (chat_id : Int)
    (u : TgUser) : List (Int × Cache) :=
  if u.is_bot then caches
  else if caches.any (fun p => p.1 == chat_id) then
    caches.map (fun p => if p.1 == chat_id then (p.1, cacheStep p.2 u) else p)
  else caches ++ [(chat_id, cacheStep [] u)]

/-- Feed a stream of (chat, author) messages through the handler. -/
def runMessages (caches : List (Int × Cache)) (msgs : List (Int × TgUser)) :
    List (Int × Cache) :=
  msgs.foldl (fun cs m => remember_member_handler cs m.1 m.2) caches

/-- The cache held for one chat (empty when none exists yet). -/
def chatCache (caches : List (Int × Cache)) (chat_id : Int) : Cache :=
  (((caches.find? (fun p => p.1 == chat_id))).map Prod.snd).getD []

/-- Keep the first entry for each key, dropping later duplicates; applied
to a most-recent-first stream this keeps each user's most recent
observation. -/
def dedupByKey : Cache → Cache
  | [] => []
  | p :: rest => p :: (dedupByKey rest).filter (fun q => !(q.1 == p.1))

/-! ### `get_chat_info_api_handler` (src/main.py lines 232-281) -/

/-- The environment of the HTTP read endpoint. `userIdOfUserField` models
`json.loads(query_params.get("user", "{}")).get("id")` (an `Except.error`
is a raised JSON decode error); `fetchTitle` models the
`managed_chats` lookup (`Except.error` = store failure, `.ok none` = no
row); `assembleMembers` models the member-list assembly
(`get_chat_administrators`, per-member ban/photos annotation) whose
uncaught failure the outer `except` turns into a 500. -/
structure ApiEnv where
  token : Bytes
  tr : Transport
  userIdOfUserField : Bytes → Except Unit (Option Int)
  fetchTitle : Int → Except Unit (Option Bytes)
  assembleMembers : Int → Except Unit Unit

structure ApiRequest where
  authHeader : Option Bytes
  chatIdParam : Option Bytes
  deriving DecidableEq

/-- `auth_header.startswith("tma ")`. -/
def startsWithTma : Bytes → Bool
  | 116 :: 109 :: 97 :: 32 :: _ => true
  | _ => false

/-- `dict(parse_qsl(unquote(init_data))).get("user", "{}")` — note this
second parse omits `keep_blank_values`. -/
def apiUserField (init_data : Bytes) : Bytes :=
  (((toDict (parse_qsl false (unquoteBytes init_data))).find?
      (fun p => p.1 == ascii "user")).map Prod.snd).getD (ascii "\x7b\x7d")

/-- The HTTP status `get_chat_info_api_handler` responds with. Control flow
follows the source: missing/ill-formed `Authorization` → 401; invalid init
data → 403; then one `try` block in which `int(request.query.get("chat_id"))`
raises on a missing (`TypeError`) or non-numeric (`ValueError`) parameter,
caught by the blanket `except` as a 500; a missing or falsy user id or a
failed admin check → 403; no `managed_chats` row → 404; any other raise
(JSON decode, store, assembly) → 500; otherwise 200. -/
def get_chat_info_api_handler (env : ApiEnv) (req : ApiRequest) : Nat :=
  match req.authHeader with
  | none => 401
  | some h =>
    if !startsWithTma h then 401
    else
      let init_data := h.drop 4
      if !is_valid_init_data init_data env.token then 403
      else
        match req.chatIdParam with
        | none => 500
        | some cs =>
          match pyIntOfBytes cs with
          | none => 500
          | some chat_id =>
            match env.userIdOfUserField (apiUserField init_data) with
            | .error _ => 500
            | .ok none => 403
            | .ok (some uid) =>
              if uid == 0 then 403
              else if !is_user_admin_in_chat env.tr uid chat_id then 403
              else
                match env.fetchTitle chat_id with
                | .error _ => 500
                | .ok none => 404
                | .ok (some _) =>
                  match env.assembleMembers chat_id with
                  | .error _ => 500
                  | .ok _ => 200

/-! ### Concrete environments used by counterexamples and witnesses -/

/-- A transport on which every call succeeds, the caller is an
administrator everywhere, and the target resolves to "Target User". -/
def okTransport : Transport :=
  ⟨fun _ _ => .ok .administrator, fun _ => .ok (ascii "Target User"),
   fun _ _ => .ok (), fun _ _ _ => .ok (), fun _ _ => .ok (), fun _ => .ok ()⟩

/-- A transport on which every call raises `TelegramAPIError`. -/
def errTransport : Transport :=
  ⟨fun _ _ => .error ⟨[]⟩, fun _ => .error ⟨[]⟩, fun _ _ => .error ⟨[]⟩,
   fun _ _ _ => .error ⟨[]⟩, fun _ _ => .error ⟨[]⟩, fun _ => .error ⟨[]⟩⟩

/-- Caller is admin, but the target's `bot.get_chat` lookup raises. -/
def nameFailTransport : Transport :=
  ⟨fun _ _ => .ok .administrator, fun _ => .error ⟨ascii "chat not found"⟩,
   fun _ _ => .ok (), fun _ _ _ => .ok (), fun _ _ => .ok (), fun _ => .ok ()⟩

/-- Caller is admin, name lookup succeeds, but `ban_chat_member` raises
with the platform's reason. -/
def banFailTransport : Transport :=
  ⟨fun _ _ => .ok .administrator, fun _ => .ok (ascii "Target User"),
   fun _ _ => .error ⟨ascii "not enough rights to restrict/unrestrict chat member"⟩,
   fun _ _ _ => .ok (), fun _ _ => .ok (), fun _ => .ok ()⟩

/-! ### Helper lemmas about `ban_user` -/

theorem ban_user_any (b : List BanRecord) (c u a : Int) :
    (ban_user b c u a).any (fun r => r.chat_id == c && r.user_id == u) = true := by
  unfold ban_user
  by_cases h : b.any (fun r => r.chat_id == c && r.user_id == u) = true
  · rw [if_pos h]; exact h
  · rw [if_neg h]
    simp [List.any_append]

theorem ban_user_second_noop (b : List BanRecord) (c u a a' : Int) :
    ban_user (ban_user b c u a) c u a' = ban_user b c u a := by
  unfold ban_user
  rw [show (if b.any (fun r => r.chat_id == c && r.user_id == u) = true then b
      else b ++ [⟨c, u, a⟩]) = ban_user b c u a from rfl]
  rw [ban_user_any, if_pos rfl]

theorem ban_user_countP_one (b : List BanRecord) (c u a : Int)
    (hkey : b.countP (fun r => r.chat_id == c && r.user_id == u) ≤ 1) :
    (ban_user b c u a).countP (fun r => r.chat_id == c && r.user_id == u) = 1 := by
  unfold ban_user
  by_cases h : b.any (fun r => r.chat_id == c && r.user_id == u) = true
  · rw [if_pos h]
    rcases List.any_eq_true.mp h with ⟨r, hr, hkeyr⟩
    have h1 : 0 < b.countP (fun r => r.chat_id == c && r.user_id == u) :=
      List.countP_pos_iff.mpr ⟨r, hr, hkeyr⟩
    omega
  · rw [if_neg h, List.countP_append]
    have h0 : b.countP (fun r => r.chat_id == c && r.user_id == u) = 0 := by
      rw [List.countP_eq_zero]
      intro r hr hkeyr
      exact h (List.any_eq_true.mpr ⟨r, hr, hkeyr⟩)
    simp [h0]

/-! ### Claim C3 -/

/-- C3: `is_user_admin_in_chat` is fail-closed: any transport error in the
membership lookup yields `false` (never an exception — the function is
total), and it yields `true` exactly when the looked-up status is
administrator or creator. -/
theorem c3_fail_closed_authorization (tr : Transport) (user_id chat_id : Int) :
    (∀ e, tr.getChatMember chat_id user_id = .error e →
      is_user_admin_in_chat tr user_id chat_id = false) ∧
    (is_user_admin_in_chat tr user_id chat_id = true ↔
      tr.getChatMember chat_id user_id = .ok .administrator ∨
      tr.getChatMember chat_id user_id = .ok .creator) := by
  constructor
  · intro e he
    simp [is_user_admin_in_chat, he]
  · unfold is_user_admin_in_chat
    cases h : tr.getChatMember chat_id user_id with
    | error e => simp
    | ok st => cases st <;> simp

theorem c3_fail_closed_authorization_witness :
    is_user_admin_in_chat errTransport 7 100 = false ∧
    is_user_admin_in_chat okTransport 7 100 = true :=
  ⟨(c3_fail_closed_authorization errTransport 7 100).1 ⟨[]⟩ rfl,
   (c3_fail_closed_authorization okTransport 7 100).2.mpr (Or.inl rfl)⟩

/-! ### Claim C1 -/

/-- The kick execution on a state already carrying a BanRecord for
(chat 100, user 55), with every platform call succeeding. -/
def c1Result : DB × List Call × List Reply :=
  web_app_data_handler okTransport ⟨[(100, ascii "Test Group")], [⟨100, 55, 7⟩]⟩ 7
    (.payload ⟨.jstr (ascii "kick"), .jint 55, .jint 100⟩)

/-- C1: the kick path completes successfully (platform ban + unban, group
notice, success confirmation), yet the pre-existing BanRecord for
(100, 55) is still present afterward: the kick branch never touches the
Ban Ledger (`database.unban_user` exists but is never called). -/
theorem c1_kick_leaves_ban_record :
    c1Result.1.banned = [⟨100, 55, 7⟩] ∧
    c1Result.2.2 = [.kickOk (ascii "Target User")] ∧
    c1Result.2.1 = [.getChatMember 100 7, .getChat (.jint 55), .ban 100 (.jint 55),
      .unban 100 (.jint 55) true, .sendChat 100 (.kickedNotice 7 (.jint 55))] ∧
    is_user_banned c1Result.1.banned 100 55 = true := by decide

/-! ### Claim C4 -/

/-- C4: executing the ban path twice in sequence for the same
(chat, target), with the platform accepting both bans: the second ledger
write is a no-op (the ledger is unchanged by the second run), there is
exactly one BanRecord for the pair afterward (given the schema invariant
that the pair occurs at most once beforehand), and both runs report
success. -/
theorem c4_ban_idempotent (tr : Transport) (banned : List BanRecord)
    (admin_id uid chat_id : Int) (user_name : Bytes) (p : ModPayload)
    (haction : p.action = .jstr (ascii "ban"))
    (huid : p.user_id = .jint uid)
    (hval : (truthy p.action && truthy p.user_id && truthy p.chat_id) = true)
    (hcid : pyIntOfJVal p.chat_id = some chat_id)
    (hadm : is_user_admin_in_chat tr admin_id chat_id = true)
    (hgc : tr.getChat p.user_id = .ok user_name)
    (hban : tr.banChatMember chat_id p.user_id = .ok ())
    (hsend : tr.sendMessage chat_id = .ok ())
    (hkey : banned.countP (fun r => r.chat_id == chat_id && r.user_id == uid) ≤ 1) :
    (webAppCore tr (webAppCore tr banned admin_id (.payload p)).banned admin_id
        (.payload p)).banned = (webAppCore tr banned admin_id (.payload p)).banned ∧
    (webAppCore tr (webAppCore tr banned admin_id (.payload p)).banned admin_id
        (.payload p)).banned.countP
        (fun r => r.chat_id == chat_id && r.user_id == uid) = 1 ∧
    (webAppCore tr banned admin_id (.payload p)).replies = [.banOk user_name] ∧
    (webAppCore tr (webAppCore tr banned admin_id (.payload p)).banned admin_id
        (.payload p)).replies = [.banOk user_name] := by
  obtain ⟨pa, pu, pc⟩ := p
  dsimp only at haction huid hval hcid hgc hban
  subst haction
  subst huid
  have hrun : ∀ b : List BanRecord,
      webAppCore tr b admin_id (.payload ⟨.jstr (ascii "ban"), .jint uid, pc⟩) =
      ⟨ban_user b chat_id uid admin_id,
       [.getChatMember chat_id admin_id, .getChat (.jint uid), .ban chat_id (.jint uid),
        .sendChat chat_id (.bannedNotice admin_id (.jint uid))],
       [.banOk user_name]⟩ := by
    intro b
    simp +decide [webAppCore, hval, hcid, hadm, hgc, hban, hsend]
  simp only [hrun]
  refine ⟨ban_user_second_noop banned chat_id uid admin_id admin_id, ?_, trivial, trivial⟩
  rw [ban_user_second_noop banned chat_id uid admin_id admin_id]
  exact ban_user_countP_one banned chat_id uid admin_id hkey

theorem c4_ban_idempotent_witness :
    (webAppCore okTransport
        (webAppCore okTransport [] 7 (.payload ⟨.jstr (ascii "ban"), .jint 55, .jint 100⟩)).banned
        7 (.payload ⟨.jstr (ascii "ban"), .jint 55, .jint 100⟩)).banned =
      (webAppCore okTransport [] 7
        (.payload ⟨.jstr (ascii "ban"), .jint 55, .jint 100⟩)).banned ∧
    (webAppCore okTransport
        (webAppCore okTransport [] 7 (.payload ⟨.jstr (ascii "ban"), .jint 55, .jint 100⟩)).banned
        7 (.payload ⟨.jstr (ascii "ban"), .jint 55, .jint 100⟩)).banned.countP
        (fun r => r.chat_id == 100 && r.user_id == 55) = 1 ∧
    (webAppCore okTransport [] 7
        (.payload ⟨.jstr (ascii "ban"), .jint 55, .jint 100⟩)).replies =
      [.banOk (ascii "Target User")] ∧
    (webAppCore okTransport
        (webAppCore okTransport [] 7 (.payload ⟨.jstr (ascii "ban"), .jint 55, .jint 100⟩)).banned
        7 (.payload ⟨.jstr (ascii "ban"), .jint 55, .jint 100⟩)).replies =
      [.banOk (ascii "Target User")] :=
  c4_ban_idempotent okTransport [] 7 55 100 (ascii "Target User")
    ⟨.jstr (ascii "ban"), .jint 55, .jint 100⟩ rfl rfl (by decide) (by decide) (by decide)
    (by decide) (by decide) (by decide) (by decide)

/-! ### Claim C6 -/

/-- A ban request for chat 100 while the `managed_chats` table is empty. -/
def c6Result : DB × List Call × List Reply :=
  web_app_data_handler okTransport ⟨[], []⟩ 7
    (.payload ⟨.jstr (ascii "ban"), .jint 55, .jint 100⟩)

/-- C6 counterexample: chat 100 has no ManagedChat entry, yet the
Moderation Action Executor performs the platform ban and writes the
BanRecord — the claim that an absent ManagedChat entry makes it perform no
moderation action is false. -/
theorem c6_counterexample :
    c6Result.1.managed = [] ∧
    c6Result.1.banned = [⟨100, 55, 7⟩] ∧
    Call.ban 100 (.jint 55) ∈ c6Result.2.1 ∧
    c6Result.2.2 = [.banOk (ascii "Target User")] := by decide

/-- C6 amended: presence in ManagedChat gates the Panel Data Assembler
(`get_chat_info_api_handler` returns 404 for an unmanaged chat, see the
C9 theorem) and the chat-selection surface, but NOT the Moderation Action
Executor: `web_app_data_handler` never consults `managed_chats`, so its
ledger effect, transport calls and replies are identical for any two
contents of that table, which it passes through unchanged. -/
theorem c6_amended_executor_ungated (tr : Transport) (m1 m2 : List (Int × Bytes))
    (banned : List BanRecord) (admin_id : Int) (wad : WebAppData) :
    (web_app_data_handler tr ⟨m1, banned⟩ admin_id wad).1.banned =
      (web_app_data_handler tr ⟨m2, banned⟩ admin_id wad).1.banned ∧
    (web_app_data_handler tr ⟨m1, banned⟩ admin_id wad).2 =
      (web_app_data_handler tr ⟨m2, banned⟩ admin_id wad).2 ∧
    (web_app_data_handler tr ⟨m1, banned⟩ admin_id wad).1.managed = m1 :=
  ⟨rfl, rfl, rfl⟩

/-! ### Claim C7 -/

/-- A ban request whose target display-name lookup (`bot.get_chat`)
raises, everything else healthy. -/
def c7Result : DB × List Call × List Reply :=
  web_app_data_handler nameFailTransport ⟨[(100, ascii "Test Group")], []⟩ 7
    (.payload ⟨.jstr (ascii "ban"), .jint 55, .jint 100⟩)

/-- C7 counterexample: the display-name lookup failure does NOT degrade to
the raw numeric id and proceed — the action is aborted by the outer
`except Exception` with an internal-error answer: no moderation platform
call is attempted and the ledger is untouched. -/
theorem c7_counterexample :
    c7Result.2.2 = [.serverError (.nameLookupFailed (ascii "chat not found"))] ∧
    c7Result.1.banned = [] ∧
    c7Result.2.1 = [.getChatMember 100 7, .getChat (.jint 55)] := by decide

/-- C7 amended: for every validated and authorized moderation request, a
failure of the target display-name lookup ABORTS the action (the
`bot.get_chat` call sits outside the inner `try`, so the outer
`except Exception` reports an internal error): no moderation platform call
is made and the Ban Ledger is unmodified. -/
theorem c7_amended_lookup_failure_aborts (tr : Transport) (banned : List BanRecord)
    (admin_id chat_id : Int) (p : ModPayload) (e : TgErr)
    (hval : (truthy p.action && truthy p.user_id && truthy p.chat_id) = true)
    (hcid : pyIntOfJVal p.chat_id = some chat_id)
    (hadm : is_user_admin_in_chat tr admin_id chat_id = true)
    (hgc : tr.getChat p.user_id = .error e) :
    webAppCore tr banned admin_id (.payload p) =
      ⟨banned, [.getChatMember chat_id admin_id, .getChat p.user_id],
       [.serverError (.nameLookupFailed e.message)]⟩ := by
  simp [webAppCore, hval, hcid, hadm, hgc]

theorem c7_amended_lookup_failure_aborts_witness :
    webAppCore nameFailTransport [] 7 (.payload ⟨.jstr (ascii "ban"), .jint 55, .jint 100⟩) =
      ⟨[], [.getChatMember 100 7, .getChat (.jint 55)],
       [.serverError (.nameLookupFailed (ascii "chat not found"))]⟩ :=
  c7_amended_lookup_failure_aborts nameFailTransport [] 7 100
    ⟨.jstr (ascii "ban"), .jint 55, .jint 100⟩ ⟨ascii "chat not found"⟩
    (by decide) (by decide) (by decide) rfl

/-! ### Claim C8 -/

/-- C8: when the platform's ban call fails, the Ban Ledger is left exactly
as it was, the reply to the actor is the API-failure answer carrying the
platform's own reason string, and the trace shows a single ban attempt
(no retry). -/
theorem c8_platform_failure_preserves_ledger (tr : Transport) (banned : List BanRecord)
    (admin_id chat_id : Int) (user_name : Bytes) (p : ModPayload) (e : TgErr)
    (haction : p.action = .jstr (ascii "ban"))
    (hval : (truthy p.action && truthy p.user_id && truthy p.chat_id) = true)
    (hcid : pyIntOfJVal p.chat_id = some chat_id)
    (hadm : is_user_admin_in_chat tr admin_id chat_id = true)
    (hgc : tr.getChat p.user_id = .ok user_name)
    (hban : tr.banChatMember chat_id p.user_id = .error e) :
    webAppCore tr banned admin_id (.payload p) =
      ⟨banned, [.getChatMember chat_id admin_id, .getChat p.user_id, .ban chat_id p.user_id],
       [.apiFail (ascii "ban") e.message]⟩ := by
  obtain ⟨pa, pu, pc⟩ := p
  dsimp only at haction hval hcid hgc hban ⊢
  subst haction
  simp +decide [webAppCore, hval, hcid, hadm, hgc, hban]

theorem c8_platform_failure_preserves_ledger_witness :
    webAppCore banFailTransport [⟨100, 1, 2⟩] 7
        (.payload ⟨.jstr (ascii "ban"), .jint 55, .jint 100⟩) =
      ⟨[⟨100, 1, 2⟩], [.getChatMember 100 7, .getChat (.jint 55), .ban 100 (.jint 55)],
       [.apiFail (ascii "ban")
         (ascii "not enough rights to restrict/unrestrict chat member")]⟩ :=
  c8_platform_failure_preserves_ledger banFailTransport [⟨100, 1, 2⟩] 7 100
    (ascii "Target User") ⟨.jstr (ascii "ban"), .jint 55, .jint 100⟩
    ⟨ascii "not enough rights to restrict/unrestrict chat member"⟩
    rfl (by decide) (by decide) (by decide) rfl rfl

/-! ### Claim C10 -/

/-- C10: a payload with any falsy field (empty action string, user_id 0,
chat_id 0 or empty — or an absent field) fails the `all([...])` check and
is rejected as incomplete data before the authorization check and before
any transport call: no calls, no ledger change, only the error answer
(whose text interpolates the `ValueError` about incomplete WebApp data).
In particular a request with `user_id = 0` never reaches any platform
call, so user id 0 can never be targeted. -/
theorem c10_falsy_payload_rejected (tr : Transport) (banned : List BanRecord)
    (admin_id : Int) (p : ModPayload)
    (h : truthy p.action = false ∨ truthy p.user_id = false ∨ truthy p.chat_id = false) :
    webAppCore tr banned admin_id (.payload p) =
      ⟨banned, [], [.serverError .incompleteData]⟩ := by
  have hall : (truthy p.action && truthy p.user_id && truthy p.chat_id) = false := by
    rcases h with h | h | h <;> simp [h]
  simp [webAppCore, hall]

theorem c10_falsy_payload_rejected_witness :
    (webAppCore okTransport [] 7 (.payload ⟨.jstr [], .jint 55, .jint 100⟩) =
      ⟨[], [], [.serverError .incompleteData]⟩) ∧
    (webAppCore okTransport [] 7 (.payload ⟨.jstr (ascii "ban"), .jint 0, .jint 100⟩) =
      ⟨[], [], [.serverError .incompleteData]⟩) ∧
    (webAppCore okTransport [] 7 (.payload ⟨.jstr (ascii "ban"), .jint 55, .jint 0⟩) =
      ⟨[], [], [.serverError .incompleteData]⟩) ∧
    (webAppCore okTransport [] 7 (.payload ⟨.jstr (ascii "ban"), .jint 55, .jstr []⟩) =
      ⟨[], [], [.serverError .incompleteData]⟩) :=
  ⟨c10_falsy_payload_rejected okTransport [] 7 _ (Or.inl (by decide)),
   c10_falsy_payload_rejected okTransport [] 7 _ (Or.inr (Or.inl (by decide))),
   c10_falsy_payload_rejected okTransport [] 7 _ (Or.inr (Or.inr (by decide))),
   c10_falsy_payload_rejected okTransport [] 7 _ (Or.inr (Or.inr (by decide)))⟩

/-! ### Claim C5: the recency cache is a bounded LRU -/

/-- `cacheStep` on the most-recent-first (reversed) view of the
`OrderedDict`: cons the fresh entry, drop any older entry with the same
key, truncate to the cap. -/
def stepRev (sr : Cache) (x : Int × MemberInfo) : Cache :=
  (x :: sr.filter (fun q => !(q.1 == x.1))).take MAX_RECENT_MEMBERS_PER_CHAT

theorem cacheStep_reverse (c : Cache) (u : TgUser) :
    (cacheStep c u).reverse = stepRev c.reverse (u.id, memberInfo u) := by
  unfold cacheStep stepRev
  rw [List.reverse_drop]
  have hmin : ((c.filter (fun q => !(q.1 == u.id))) ++ [(u.id, memberInfo u)]).length -
      (((c.filter (fun q => !(q.1 == u.id))) ++ [(u.id, memberInfo u)]).length -
        MAX_RECENT_MEMBERS_PER_CHAT) =
      min MAX_RECENT_MEMBERS_PER_CHAT
        ((c.filter (fun q => !(q.1 == u.id))) ++ [(u.id, memberInfo u)]).length := by
    omega
  rw [hmin, ← List.take_take, ← List.length_reverse, List.take_length, List.reverse_append]
  simp [List.filter_reverse]

theorem foldl_cacheStep_reverse (users : List (Int × TgUser)) :
    ∀ cc : Cache, (users.foldl (fun s m => cacheStep s m.2) cc).reverse =
      (users.map (fun m => (m.2.id, memberInfo m.2))).foldl stepRev cc.reverse := by
  induction users with
  | nil => intro cc; rfl
  | cons m rest ih =>
      intro cc
      simp only [List.foldl_cons, List.map_cons]
      rw [ih, cacheStep_reverse]

theorem dedupByKey_keys_nodup : ∀ l : Cache, ((dedupByKey l).map Prod.fst).Nodup
  | [] => List.nodup_nil
  | p :: rest => by
      simp only [dedupByKey, List.map_cons, List.nodup_cons]
      refine ⟨?_, ?_⟩
      · intro hmem
        rcases List.mem_map.mp hmem with ⟨q, hq, hq1⟩
        have hkeep := List.of_mem_filter hq
        simp only [Bool.not_eq_true', beq_eq_false_iff_ne] at hkeep
        exact hkeep hq1
      · exact (((List.filter_sublist _).map Prod.fst).nodup) (dedupByKey_keys_nodup rest)

/-- Truncating a distinct-key list to `m + 1` entries before removing the
(at most one) entry with a given key changes nothing about the first `m`
survivors. -/
theorem filter_take_succ (k : Int) :
    ∀ (l : Cache) (m : Nat), ((l.map Prod.fst).Nodup) →
      ((l.take (m + 1)).filter (fun q => !(q.1 == k))).take m =
        ((l.filter (fun q => !(q.1 == k))).take m)
  | [], _, _ => rfl
  | a :: l', m, hnd => by
      simp only [List.map_cons, List.nodup_cons] at hnd
      obtain ⟨hna, hnd'⟩ := hnd
      by_cases ha : a.1 == k
      · have hk : a.1 = k := by simpa using ha
        have hl' : ∀ q ∈ l', (fun q : Int × MemberInfo => !(q.1 == k)) q = true := by
          intro q hq
          have hne : q.1 ≠ k := by
            intro h
            exact hna (List.mem_map.mpr ⟨q, hq, by rw [h, hk]⟩)
          simp [hne]
        rw [List.take_succ_cons, List.filter_cons, List.filter_cons]
        simp only [hk, beq_self_eq_true, Bool.not_true, Bool.false_eq_true, if_false]
        rw [List.filter_eq_self.mpr (fun q hq => hl' q (List.mem_of_mem_take hq)),
          List.filter_eq_self.mpr hl', List.take_take]
        simp
      · have hab : (a.1 == k) = false := by simpa using ha
        match m with
        | 0 => rfl
        | m' + 1 =>
          rw [List.take_succ_cons, List.filter_cons, List.filter_cons]
          simp only [hab, Bool.not_false, if_true]
          rw [List.take_succ_cons, List.take_succ_cons]
          rw [filter_take_succ k l' m' hnd']

/-- Replaying a (chronological) stream of observations through the
reversed-view step computes the cap-truncated, key-deduplicated
most-recent-first history. -/
theorem foldl_stepRev_eq (ps : List (Int × MemberInfo)) :
    ps.foldl stepRev [] = (dedupByKey ps.reverse).take MAX_RECENT_MEMBERS_PER_CHAT := by
  induction ps using List.reverseRecOn with
  | nil => rfl
  | append_singleton l x ih =>
      rw [List.foldl_append]
      simp only [List.foldl_cons, List.foldl_nil]
      rw [ih, List.reverse_append]
      simp only [List.reverse_cons, List.reverse_nil, List.nil_append, List.singleton_append]
      show stepRev _ x = (dedupByKey (x :: l.reverse)).take MAX_RECENT_MEMBERS_PER_CHAT
      unfold stepRev
      simp only [dedupByKey]
      have h100 : MAX_RECENT_MEMBERS_PER_CHAT = 99 + 1 := rfl
      rw [h100, List.take_succ_cons, List.take_succ_cons]
      rw [filter_take_succ x.1 (dedupByKey l.reverse) 99 (dedupByKey_keys_nodup _)]

theorem find?_map_keypre (g : (Int × Cache) → (Int × Cache)) (hg : ∀ p, (g p).1 = p.1)
    (caches : List (Int × Cache)) (c : Int) :
    (caches.map g).find? (fun p => p.1 == c) =
      (caches.find? (fun p => p.1 == c)).map g := by
  induction caches with
  | nil => rfl
  | cons a l ih =>
      by_cases h : a.1 == c
      · simp [List.find?, hg a, h]
      · simp [List.find?, hg a, h, ih]

/-- The effect of one handled message on one chat's cache: an update by
`cacheStep` for a non-bot author's message in that chat, the identity
otherwise. -/
theorem chatCache_handler (caches : List (Int × Cache)) (chat_id : Int) (u : TgUser)
    (c : Int) :
    chatCache (remember_member_handler caches chat_id u) c =
      if (chat_id == c) && !u.is_bot then cacheStep (chatCache caches c) u
      else chatCache caches c := by
  unfold remember_member_handler
  by_cases hb : u.is_bot
  · simp [hb]
  · have hb' : u.is_bot = false := by simpa using hb
    simp only [hb', Bool.false_eq_true, if_false, Bool.not_false, Bool.and_true]
    by_cases hany : caches.any (fun p => p.1 == chat_id)
    · rw [if_pos hany]
      unfold chatCache
      rw [find?_map_keypre (fun p => if p.1 == chat_id then (p.1, cacheStep p.2 u) else p)
        (fun p => by by_cases h : p.1 == chat_id <;> simp [h]) caches c]
      by_cases hcc : chat_id = c
      · subst hcc
        obtain ⟨p, hp⟩ : ∃ p, caches.find? (fun q => q.1 == chat_id) = some p := by
          rw [← Option.isSome_iff_exists, List.find?_isSome]
          exact List.any_eq_true.mp hany
        rw [hp]
        have hp1 : p.1 = chat_id := by simpa using List.find?_some hp
        simp [hp1]
      · have hccb : (chat_id == c) = false := beq_eq_false_iff_ne.mpr hcc
        rw [hccb]
        simp only [Bool.false_eq_true, if_false]
        cases hf : caches.find? (fun q => q.1 == c) with
        | none => rfl
        | some p =>
            have hpc : p.1 = c := by simpa using List.find?_some hf
            have hne : p.1 ≠ chat_id := by rw [hpc]; exact fun h => hcc h.symm
            simp [hne]
    · rw [if_neg hany]
      unfold chatCache
      rw [List.find?_append]
      by_cases hcc : chat_id = c
      · subst hcc
        have hnone : caches.find? (fun q => q.1 == chat_id) = none := by
          rw [List.find?_eq_none]
          intro x hx hpx
          exact hany (List.any_eq_true.mpr ⟨x, hx, hpx⟩)
        rw [hnone]
        simp [List.find?]
      · have hccb : (chat_id == c) = false := beq_eq_false_iff_ne.mpr hcc
        simp [List.find?, hccb]

/-- The per-chat content of the global dict after a message stream: the
fold of `cacheStep` over that chat's non-bot messages. -/
theorem chatCache_runMessages : ∀ (msgs : List (Int × TgUser)) (caches : List (Int × Cache))
    (c : Int),
    chatCache (runMessages caches msgs) c =
      (msgs.filter (fun m => m.1 == c && !m.2.is_bot)).foldl
        (fun s m => cacheStep s m.2) (chatCache caches c)
  | [], _, _ => rfl
  | m :: rest, caches, c => by
      show chatCache (runMessages (remember_member_handler caches m.1 m.2) rest) c = _
      rw [chatCache_runMessages rest _ c, chatCache_handler]
      by_cases h : (m.1 == c) && !m.2.is_bot
      · rw [if_pos h, List.filter_cons]
        simp [h]
      · rw [if_neg h, List.filter_cons]
        simp [h]

/-- C5: for every chat and every message stream, the chat's recency cache
(i) never exceeds 100 entries; (ii) read most-recent-first, it is exactly
the key-deduplicated reversed stream of that chat's non-bot observations,
truncated to 100 — i.e. the 100 most recently observed users, most recent
first, a re-observed user keeping only its most recent position (moved to
the most-recently-seen end) and the least-recently-seen entries evicted;
and (iii) once more than 100 distinct users have been observed it holds
exactly 100 entries. -/
theorem c5_recency_cache_bound (msgs : List (Int × TgUser)) (c : Int) :
    (chatCache (runMessages [] msgs) c).length ≤ MAX_RECENT_MEMBERS_PER_CHAT ∧
    (chatCache (runMessages [] msgs) c).reverse =
      (dedupByKey (((msgs.filter (fun m => m.1 == c && !m.2.is_bot)).map
        (fun m => (m.2.id, memberInfo m.2))).reverse)).take MAX_RECENT_MEMBERS_PER_CHAT ∧
    (MAX_RECENT_MEMBERS_PER_CHAT ≤
        (dedupByKey (((msgs.filter (fun m => m.1 == c && !m.2.is_bot)).map
          (fun m => (m.2.id, memberInfo m.2))).reverse)).length →
      (chatCache (runMessages [] msgs) c).length = MAX_RECENT_MEMBERS_PER_CHAT) := by
  have h1 : (chatCache (runMessages [] msgs) c).reverse =
      (dedupByKey (((msgs.filter (fun m => m.1 == c && !m.2.is_bot)).map
        (fun m => (m.2.id, memberInfo m.2))).reverse)).take MAX_RECENT_MEMBERS_PER_CHAT := by
    rw [chatCache_runMessages msgs [] c]
    show ((msgs.filter _).foldl (fun s m => cacheStep s m.2) []).reverse = _
    rw [foldl_cacheStep_reverse]
    exact foldl_stepRev_eq _
  have hlen := congrArg List.length h1
  rw [List.length_reverse, List.length_take] at hlen
  exact ⟨by omega, h1, fun hge => by omega⟩

/-- 101 messages by 101 distinct non-bot users in chat 5. -/
def c5Msgs : List (Int × TgUser) :=
  (List.range 101).map (fun i => ((5 : Int), ⟨Int.ofNat i, ascii "u", none, none, false⟩))

theorem c5_recency_cache_bound_witness :
    (chatCache (runMessages [] c5Msgs) 5).length = MAX_RECENT_MEMBERS_PER_CHAT :=
  (c5_recency_cache_bound c5Msgs 5).2.2 (by decide)

/-! ### Claim C2: order theory for the check-string sort -/

theorem bytesLe_total : ∀ a b : Bytes, bytesLe a b = true ∨ bytesLe b a = true
  | [], _ => Or.inl rfl
  | _ :: _, [] => Or.inr rfl
  | x :: xs, y :: ys => by
      by_cases h1 : x < y
      · left; simp [bytesLe, h1]
      · by_cases h2 : x = y
        · subst h2
          rcases bytesLe_total xs ys with h | h
          · left; simp [bytesLe, h]
          · right; simp [bytesLe, h]
        · right
          have h3 : y < x := by omega
          simp [bytesLe, h3]

theorem bytesLe_trans : ∀ a b c : Bytes,
    bytesLe a b = true → bytesLe b c = true → bytesLe a c = true
  | [], _, _, _, _ => rfl
  | _ :: _, [], _, h1, _ => by simp [bytesLe] at h1
  | _ :: _, _ :: _, [], _, h2 => by simp [bytesLe] at h2
  | x :: xs, y :: ys, z :: zs, h1, h2 => by
      simp only [bytesLe] at h1 h2 ⊢
      by_cases hxy : x < y
      · by_cases hyz : y < z
        · simp [show x < z by omega]
        · by_cases hyz2 : y = z
          · subst hyz2; simp [hxy]
          · simp [hyz, hyz2] at h2
      · by_cases hxy2 : x = y
        · subst hxy2
          rw [if_neg hxy, if_pos rfl] at h1
          by_cases hyz : x < z
          · simp [hyz]
          · by_cases hyz2 : x = z
            · subst hyz2
              rw [if_neg hyz, if_pos rfl] at h2 ⊢
              exact bytesLe_trans xs ys zs h1 h2
            · simp [hyz, hyz2] at h2
        · simp [hxy, hxy2] at h1

theorem bytesLe_antisymm : ∀ a b : Bytes,
    bytesLe a b = true → bytesLe b a = true → a = b
  | [], [], _, _ => rfl
  | [], _ :: _, _, h2 => by simp [bytesLe] at h2
  | _ :: _, [], h1, _ => by simp [bytesLe] at h1
  | x :: xs, y :: ys, h1, h2 => by
      by_cases hxy : x < y
      · have hn1 : ¬y < x := by omega
        have hn2 : y ≠ x := by omega
        simp [bytesLe, hn1, hn2] at h2
      · by_cases hxy2 : x = y
        · subst hxy2
          simp only [bytesLe, if_neg hxy, if_pos rfl] at h1 h2
          rw [bytesLe_antisymm xs ys h1 h2]
        · simp [bytesLe, hxy, hxy2] at h1

instance : IsTotal (Bytes × Bytes) PairLeP where
  total x y := by
    unfold PairLeP pairLe
    by_cases h : x.1 = y.1
    · rw [if_pos h, if_pos h.symm]
      exact bytesLe_total x.2 y.2
    · rw [if_neg h, if_neg (fun hh => h hh.symm)]
      exact bytesLe_total x.1 y.1

instance : IsTrans (Bytes × Bytes) PairLeP where
  trans x y z hxy hyz := by
    unfold PairLeP pairLe at hxy hyz ⊢
    by_cases h1 : x.1 = y.1 <;> by_cases h2 : y.1 = z.1
    · rw [if_pos h1] at hxy
      rw [if_pos h2] at hyz
      rw [if_pos (h1.trans h2)]
      exact bytesLe_trans _ _ _ hxy hyz
    · rw [if_pos h1] at hxy
      rw [if_neg h2] at hyz
      rw [if_neg (fun h => h2 (h1.symm.trans h)), h1]
      exact hyz
    · rw [if_neg h1] at hxy
      rw [if_pos h2] at hyz
      rw [if_neg (fun h => h1 (h.trans h2.symm)), ← h2]
      exact hxy
    · rw [if_neg h1] at hxy
      rw [if_neg h2] at hyz
      have hxz : x.1 ≠ z.1 := by
        intro h
        exact h1 (bytesLe_antisymm x.1 y.1 hxy (h ▸ hyz))
      rw [if_neg hxz]
      exact bytesLe_trans _ _ _ hxy hyz

instance : IsAntisymm (Bytes × Bytes) PairLeP where
  antisymm x y hxy hyx := by
    obtain ⟨x1, x2⟩ := x
    obtain ⟨y1, y2⟩ := y
    unfold PairLeP pairLe at hxy hyx
    dsimp only at hxy hyx
    by_cases h : x1 = y1
    · subst h
      rw [if_pos rfl] at hxy hyx
      rw [bytesLe_antisymm x2 y2 hxy hyx]
    · rw [if_neg h] at hxy
      rw [if_neg (fun hh => h hh.symm)] at hyx
      exact absurd (bytesLe_antisymm x1 y1 hxy hyx) h

/-- `sorted(d.items())` depends only on the multiset of items. -/
theorem sortedItems_eq_of_perm {d₁ d₂ : List (Bytes × Bytes)} (h : d₁.Perm d₂) :
    sortedItems d₁ = sortedItems d₂ :=
  List.eq_of_perm_of_sorted
    ((List.perm_insertionSort PairLeP d₁).trans
      (h.trans (List.perm_insertionSort PairLeP d₂).symm))
    (List.sorted_insertionSort PairLeP d₁) (List.sorted_insertionSort PairLeP d₂)

/-! ### Claim C2: dict keys are distinct; `find?` is permutation-invariant -/

theorem dictInsert_keys (d : List (Bytes × Bytes)) (kv : Bytes × Bytes) :
    (dictInsert d kv).map Prod.fst =
      if d.any (fun p => p.1 == kv.1) then d.map Prod.fst
      else d.map Prod.fst ++ [kv.1] := by
  unfold dictInsert
  by_cases h : d.any (fun p => p.1 == kv.1)
  · rw [if_pos h, if_pos h, List.map_map]
    refine List.map_congr_left ?_
    intro p _
    show (if (p.1 == kv.1) = true then (p.1, kv.2) else p).1 = p.1
    split <;> rfl
  · rw [if_neg h, if_neg h, List.map_append]
    rfl

theorem toDict_keys_nodup (ps : List (Bytes × Bytes)) :
    ((toDict ps).map Prod.fst).Nodup := by
  suffices hgen : ∀ d : List (Bytes × Bytes), (d.map Prod.fst).Nodup →
      ((ps.foldl dictInsert d).map Prod.fst).Nodup from hgen [] List.nodup_nil
  induction ps with
  | nil => intro d hd; exact hd
  | cons kv rest ih =>
      intro d hd
      refine ih (dictInsert d kv) ?_
      rw [dictInsert_keys]
      by_cases h : d.any (fun p => p.1 == kv.1)
      · rw [if_pos h]; exact hd
      · rw [if_neg h]
        have hnotin : kv.1 ∉ d.map Prod.fst := by
          intro hmem
          rcases List.mem_map.mp hmem with ⟨q, hq, hq1⟩
          exact h (List.any_eq_true.mpr ⟨q, hq, by simp [hq1]⟩)
        exact ((List.perm_append_singleton kv.1 (d.map Prod.fst)).nodup_iff).mpr
          (List.nodup_cons.mpr ⟨hnotin, hd⟩)

theorem find?_eq_of_perm (k : Bytes) :
    ∀ {l₁ l₂ : List (Bytes × Bytes)}, l₁.Perm l₂ → ((l₁.map Prod.fst).Nodup) →
      l₁.find? (fun p => p.1 == k) = l₂.find? (fun p => p.1 == k) := by
  intro l₁ l₂ h
  induction h with
  | nil => intro _; rfl
  | cons x hp ih =>
      intro hnd
      simp only [List.map_cons, List.nodup_cons] at hnd
      by_cases hx : (x.1 == k)
      · simp [List.find?, hx]
      · simp [List.find?, hx, ih hnd.2]
  | swap x y l =>
      intro hnd
      simp only [List.map_cons, List.nodup_cons, List.mem_cons] at hnd
      by_cases hx : (x.1 == k) <;> by_cases hy : (y.1 == k)
      · exfalso
        have h1 : x.1 = k := by simpa using hx
        have h2 : y.1 = k := by simpa using hy
        exact hnd.1 (Or.inl (h2.trans h1.symm))
      · simp [List.find?, hx, hy]
      · simp [List.find?, hx, hy]
      · simp [List.find?, hx, hy]
  | trans h1 h2 ih1 ih2 =>
      intro hnd
      rw [ih1 hnd, ih2 ((h1.map Prod.fst).nodup_iff.mp hnd)]

/-! ### Claim C2: the verification characterization and its counterexamples -/

/-- C2 amended: (i) verification succeeds exactly when the parsed payload
has a `hash` field equal to the hex HMAC-SHA256 of the check-string keyed
by the secret `HMAC-SHA256(key = "WebAppData", message = bot token)` — the
key/message roles are the opposite of the claim's wording; (ii) the
original key order of the payload is irrelevant (any two payloads parsing
to the same fields verify alike); (iii) a change confined to the `hash`
field of a verifying payload (same check-string, different hash) makes
verification fail. (The claim's stronger "flipping any single character
in any field must fail" is false: a flip inside a percent-escape can
leave the decoded fields unchanged, see the counterexample.) -/
theorem c2_amended_verification :
    (∀ init_data bot_token : Bytes,
      is_valid_init_data init_data bot_token = true ↔
        ∃ h, hashField init_data = some h ∧ h = codeExpectedHash init_data bot_token) ∧
    (∀ p₁ p₂ bot_token : Bytes, (initDict p₁).Perm (initDict p₂) →
      is_valid_init_data p₁ bot_token = is_valid_init_data p₂ bot_token) ∧
    (∀ p p' bot_token : Bytes,
      is_valid_init_data p bot_token = true →
      data_check_string p' = data_check_string p →
      hashField p' ≠ hashField p →
      is_valid_init_data p' bot_token = false) := by
  have part1 : ∀ init_data bot_token : Bytes,
      is_valid_init_data init_data bot_token = true ↔
        ∃ h, hashField init_data = some h ∧ h = codeExpectedHash init_data bot_token := by
    intro init_data bot_token
    unfold is_valid_init_data dictPop hashField codeExpectedHash data_check_string
    cases hf : (initDict init_data).find? (fun p => p.1 == hashKey) with
    | none =>
        refine ⟨fun h => absurd h Bool.false_ne_true, ?_⟩
        rintro ⟨h, hh, _⟩
        exact Option.noConfusion hh
    | some q =>
        refine ⟨fun h => ⟨q.2, rfl, (eq_of_beq h).symm⟩, ?_⟩
        rintro ⟨h, hh, he⟩
        exact beq_iff_eq.mpr ((Option.some.inj hh).trans he).symm
  refine ⟨part1, ?_, ?_⟩
  · intro p₁ p₂ bot_token hperm
    unfold is_valid_init_data dictPop
    rw [find?_eq_of_perm hashKey hperm (toDict_keys_nodup _)]
    cases hf : (initDict p₂).find? (fun p => p.1 == hashKey) with
    | none => rfl
    | some q =>
        have hfil : ((initDict p₁).filter (fun q => !(q.1 == hashKey))).Perm
            ((initDict p₂).filter (fun q => !(q.1 == hashKey))) := hperm.filter _
        show (hexBytes (hmacSha256 (hmacSha256 webAppDataLit bot_token) (joinNL (List.map
            (fun kv => kv.1 ++ 61 :: kv.2) (sortedItems (List.filter
            (fun q => !(q.1 == hashKey)) (initDict p₁)))))) == q.2) =
          (hexBytes (hmacSha256 (hmacSha256 webAppDataLit bot_token) (joinNL (List.map
            (fun kv => kv.1 ++ 61 :: kv.2) (sortedItems (List.filter
            (fun q => !(q.1 == hashKey)) (initDict p₂)))))) == q.2)
        rw [sortedItems_eq_of_perm hfil]
  · intro p p' bot_token hvalid hdcs hneq
    cases hb : is_valid_init_data p' bot_token with
    | false => rfl
    | true =>
        exfalso
        rcases (part1 p bot_token).mp hvalid with ⟨h, hh, hhe⟩
        rcases (part1 p' bot_token).mp hb with ⟨h2, hh2, hhe2⟩
        apply hneq
        rw [hh2, hh, hhe, hhe2]
        show some (codeExpectedHash p' bot_token) = some (codeExpectedHash p bot_token)
        unfold codeExpectedHash
        rw [hdcs]

/-- A concrete bot token. -/
def c2Tok : Bytes := ascii "7138271:test-token"

/-- Fields `b=2&a=1` with the correct hash per the code's algorithm. -/
def c2P1 : Bytes := ascii "b=2&a=1&hash=" ++ codeExpectedHash (ascii "b=2&a=1") c2Tok

/-- A payload whose field value carries the percent-escape `%4a`. -/
def c2P2 : Bytes := ascii "a=%4a&hash=" ++ codeExpectedHash (ascii "a=%4a") c2Tok

/-- `c2P2` with the single character flip `%4a` → `%4A` (same decoded
field, same hash). -/
def c2P3 : Bytes := ascii "a=%4A&hash=" ++ codeExpectedHash (ascii "a=%4a") c2Tok

/-- `c2P1` with its two fields supplied in the opposite order. -/
def c2P4 : Bytes := ascii "a=1&b=2&hash=" ++ codeExpectedHash (ascii "b=2&a=1") c2Tok

/-- `c2P1` with the first hash character overwritten by `0`. -/
def c2P5 : Bytes := ascii "b=2&a=1&hash=" ++
  (48 :: (codeExpectedHash (ascii "b=2&a=1") c2Tok).drop 1)

/-- C2 counterexample: at the payload `c2P1` (which the code verifies),
the hash field does NOT equal the claim's formula — the claim derives the
secret as HMAC of `"WebAppData"` keyed by the token, while the code keys
HMAC by `"WebAppData"` with the token as message — so the claimed "exactly
when" fails; and `c2P3`, obtained from the verifying payload `c2P2` by
flipping exactly one character (`%4a` → `%4A`), still verifies, refuting
"flipping any single character in any field … makes verification fail". -/
theorem c2_counterexample :
    is_valid_init_data c2P1 c2Tok = true ∧
    hashField c2P1 ≠ some (c2SpecExpectedHash c2P1 c2Tok) ∧
    is_valid_init_data c2P2 c2Tok = true ∧
    is_valid_init_data c2P3 c2Tok = true ∧
    c2P2.length = c2P3.length ∧
    (List.zip c2P2 c2P3).countP (fun q => q.1 != q.2) = 1 := by decide

theorem c2_amended_verification_witness :
    is_valid_init_data c2P1 c2Tok = true ∧
    is_valid_init_data c2P4 c2Tok = is_valid_init_data c2P1 c2Tok ∧
    is_valid_init_data c2P5 c2Tok = false :=
  ⟨(c2_amended_verification.1 c2P1 c2Tok).mpr
      ⟨codeExpectedHash c2P1 c2Tok, by decide, rfl⟩,
   c2_amended_verification.2.1 c2P4 c2P1 c2Tok (by decide),
   c2_amended_verification.2.2 c2P1 c2P5 c2Tok (by decide) (by decide) (by decide)⟩

/-! ### Claim C9: the read endpoint's status taxonomy -/

/-- An environment whose store and transport are healthy: the caller is
admin 7 everywhere, chat titles exist, member assembly succeeds. -/
def c9Env : ApiEnv :=
  ⟨c2Tok, okTransport, fun _ => .ok (some 7), fun _ => .ok (some (ascii "Test Group")),
   fun _ => .ok ()⟩

/-- Like `c9Env`, but no chat has a `managed_chats` row. -/
def c9EnvUnmanaged : ApiEnv :=
  ⟨c2Tok, okTransport, fun _ => .ok (some 7), fun _ => .ok none, fun _ => .ok ()⟩

/-- A correctly signed `Authorization` header value. -/
def c9AuthHeader : Bytes := ascii "tma " ++ c2P1

/-- C9 counterexample: a fully authenticated, authorized request whose
`chat_id` query parameter is missing (resp. non-numeric) is answered with
HTTP 500 — `int(request.query.get("chat_id"))` raises and the blanket
`except` answers 500 — not the 400 the claim's taxonomy assigns to
malformed input (no branch of the handler produces 400). -/
theorem c9_counterexample :
    get_chat_info_api_handler c9Env ⟨some c9AuthHeader, none⟩ = 500 ∧
    get_chat_info_api_handler c9Env ⟨some c9AuthHeader, some (ascii "abc")⟩ = 500 := by
  decide

/-- C9 amended: the endpoint's HTTP statuses follow the taxonomy
{missing/ill-formed `Authorization` = 401, invalid signature = 403,
missing or non-numeric `chat_id` = 500 (the claim said 400; the raised
`TypeError`/`ValueError` lands in the blanket `except`), absent or falsy
user id or caller not an admin = 403, chat not managed = 404, internal
failure (JSON decode, store, assembly) = 500, otherwise 200}. -/
theorem c9_amended_status_taxonomy (env : ApiEnv) (req : ApiRequest) :
    (req.authHeader = none → get_chat_info_api_handler env req = 401) ∧
    (∀ h, req.authHeader = some h → startsWithTma h = false →
      get_chat_info_api_handler env req = 401) ∧
    (∀ h, req.authHeader = some h → startsWithTma h = true →
      is_valid_init_data (h.drop 4) env.token = false →
      get_chat_info_api_handler env req = 403) ∧
    (∀ h, req.authHeader = some h → startsWithTma h = true →
      is_valid_init_data (h.drop 4) env.token = true →
      (req.chatIdParam = none ∨ ∃ cs, req.chatIdParam = some cs ∧ pyIntOfBytes cs = none) →
      get_chat_info_api_handler env req = 500) ∧
    (∀ h cs cid, req.authHeader = some h → startsWithTma h = true →
      is_valid_init_data (h.drop 4) env.token = true →
      req.chatIdParam = some cs → pyIntOfBytes cs = some cid →
      (env.userIdOfUserField (apiUserField (h.drop 4)) = .ok none ∨
       env.userIdOfUserField (apiUserField (h.drop 4)) = .ok (some 0) ∨
       (∃ uid, env.userIdOfUserField (apiUserField (h.drop 4)) = .ok (some uid) ∧ uid ≠ 0 ∧
         is_user_admin_in_chat env.tr uid cid = false)) →
      get_chat_info_api_handler env req = 403) ∧
    (∀ h cs cid uid, req.authHeader = some h → startsWithTma h = true →
      is_valid_init_data (h.drop 4) env.token = true →
      req.chatIdParam = some cs → pyIntOfBytes cs = some cid →
      env.userIdOfUserField (apiUserField (h.drop 4)) = .ok (some uid) → uid ≠ 0 →
      is_user_admin_in_chat env.tr uid cid = true →
      env.fetchTitle cid = .ok none →
      get_chat_info_api_handler env req = 404) ∧
    (∀ h cs cid, req.authHeader = some h → startsWithTma h = true →
      is_valid_init_data (h.drop 4) env.token = true →
      req.chatIdParam = some cs → pyIntOfBytes cs = some cid →
      (env.userIdOfUserField (apiUserField (h.drop 4)) = .error () ∨
       (∃ uid, env.userIdOfUserField (apiUserField (h.drop 4)) = .ok (some uid) ∧ uid ≠ 0 ∧
         is_user_admin_in_chat env.tr uid cid = true ∧
         (env.fetchTitle cid = .error () ∨
          (∃ t, env.fetchTitle cid = .ok (some t) ∧ env.assembleMembers cid = .error ())))) →
      get_chat_info_api_handler env req = 500) ∧
    (∀ h cs cid uid t, req.authHeader = some h → startsWithTma h = true →
      is_valid_init_data (h.drop 4) env.token = true →
      req.chatIdParam = some cs → pyIntOfBytes cs = some cid →
      env.userIdOfUserField (apiUserField (h.drop 4)) = .ok (some uid) → uid ≠ 0 →
      is_user_admin_in_chat env.tr uid cid = true →
      env.fetchTitle cid = .ok (some t) → env.assembleMembers cid = .ok () →
      get_chat_info_api_handler env req = 200) := by
  refine ⟨?_, ?_, ?_, ?_, ?_, ?_, ?_, ?_⟩
  · intro hnone
    simp [get_chat_info_api_handler, hnone]
  · intro h hh hst
    simp [get_chat_info_api_handler, hh, hst]
  · intro h hh hst hval
    simp [get_chat_info_api_handler, hh, hst, hval]
  · intro h hh hst hval hmal
    rcases hmal with hm | ⟨cs, hcs, hpi⟩
    · simp [get_chat_info_api_handler, hh, hst, hval, hm]
    · simp [get_chat_info_api_handler, hh, hst, hval, hcs, hpi]
  · intro h cs cid hh hst hval hcs hpi huid
    rcases huid with hu | hu | ⟨uid, hu, hne, hadm⟩
    · simp [get_chat_info_api_handler, hh, hst, hval, hcs, hpi, hu]
    · simp [get_chat_info_api_handler, hh, hst, hval, hcs, hpi, hu]
    · simp [get_chat_info_api_handler, hh, hst, hval, hcs, hpi, hu, hne, hadm]
  · intro h cs cid uid hh hst hval hcs hpi hu hne hadm hti
    simp [get_chat_info_api_handler, hh, hst, hval, hcs, hpi, hu, hne, hadm, hti]
  · intro h cs cid hh hst hval hcs hpi hint
    rcases hint with hu | ⟨uid, hu, hne, hadm, hrest⟩
    · simp [get_chat_info_api_handler, hh, hst, hval, hcs, hpi, hu]
    · rcases hrest with hti | ⟨t, hti, has⟩
      · simp [get_chat_info_api_handler, hh, hst, hval, hcs, hpi, hu, hne, hadm, hti]
      · simp [get_chat_info_api_handler, hh, hst, hval, hcs, hpi, hu, hne, hadm, hti, has]
  · intro h cs cid uid t hh hst hval hcs hpi hu hne hadm hti has
    simp [get_chat_info_api_handler, hh, hst, hval, hcs, hpi, hu, hne, hadm, hti, has]

theorem c9_amended_status_taxonomy_witness :
    get_chat_info_api_handler c9Env ⟨none, some (ascii "100")⟩ = 401 ∧
    get_chat_info_api_handler c9Env ⟨some (ascii "Bearer x"), some (ascii "100")⟩ = 401 ∧
    get_chat_info_api_handler c9Env ⟨some (ascii "tma a=1"), some (ascii "100")⟩ = 403 ∧
    get_chat_info_api_handler c9Env ⟨some c9AuthHeader, none⟩ = 500 ∧
    get_chat_info_api_handler c9EnvUnmanaged ⟨some c9AuthHeader, some (ascii "100")⟩ = 404 ∧
    get_chat_info_api_handler c9Env ⟨some c9AuthHeader, some (ascii "100")⟩ = 200 :=
  ⟨(c9_amended_status_taxonomy c9Env _).1 rfl,
   (c9_amended_status_taxonomy c9Env _).2.1 _ rfl (by decide),
   (c9_amended_status_taxonomy c9Env _).2.2.1 _ rfl (by decide) (by decide),
   (c9_amended_status_taxonomy c9Env _).2.2.2.1 _ rfl (by decide) (by decide) (Or.inl rfl),
   (c9_amended_status_taxonomy c9EnvUnmanaged _).2.2.2.2.2.1 _ (ascii "100") 100 7 rfl
     (by decide) (by decide) rfl (by decide) rfl (by decide) (by decide) rfl,
   (c9_amended_status_taxonomy c9Env _).2.2.2.2.2.2.2 _ (ascii "100") 100 7
     (ascii "Test Group") rfl (by decide) (by decide) rfl (by decide) rfl (by decide)
     (by decide) rfl rfl⟩

end Py
